import Mathlib

/-!
Verification of the launch sequence in `binfmt/binfmt_execmodule.c`
(`exec_module` and the constructor start hook `exec_ctors`).

The C function is a straight-line sequencer over external collaborators
(`kmm_zalloc`, `up_addrenv_select`, `umm_initialize`, `kumm_malloc`,
`task_init`, `up_addrenv_clone`, `task_starthook`, `task_activate`,
`up_addrenv_restore`, `sched_releasetcb`, `kumm_free`, `kmm_free`) with
goto-based unwinding.  We embed it shallowly: the build configuration
(`CONFIG_DEBUG`, `CONFIG_ARCH_ADDRENV`, `CONFIG_PIC`,
`CONFIG_BINFMT_CONSTRUCTORS`) is a record of Booleans, the outcome of
every collaborator call is an oracle record, and the function returns its
C return value, the errno it set, and the ordered trace of collaborator
calls it made.  Each `errout_*` label of the C source is its own Lean
definition.
-/

namespace BinfmtExec

/-- errno value EINVAL (invalid argument). -/
def EINVAL : Nat := 22

/-- errno value ENOMEM (out of memory). -/
def ENOMEM : Nat := 12

/-- The distinguished failure return value `ERROR` of NuttX. -/
def ERROR : Int := -1

/-- Which heap an allocation is drawn from.  `taskHeap` is the task-owned
user heap set up by `umm_initialize` inside the freshly selected address
environment; `kernel` is the allocator active when no per-task address
space was selected. -/
inductive Heap
  | kernel
  | taskHeap
deriving DecidableEq, Repr, Fintype

/-- One collaborator call made by `exec_module`, in program order.
`releaseTcb owned` records the call to `sched_releasetcb` together with
the value of `tcb->cmn.stack_alloc_ptr` at the moment of the call
(`owned = true` means the pointer was still non-NULL, so the release
would transitively free the stack; `owned = false` means it had been set
to NULL first).  `ummInit h` is `umm_initialize` re-targeting the user
allocator at heap `h`; `allocStack h` is `kumm_malloc`, drawing from the
user heap current at that point. -/
inductive Event
  | allocTcb
  | selectEnv
  | ummInit (h : Heap)
  | allocStack (h : Heap)
  | taskInit
  | picSetup
  | cloneEnv
  | startHook
  | readPid
  | activate
  | restoreEnv
  | releaseTcb (owned : Bool)
  | freeStack
  | freeTcb
deriving DecidableEq, Repr, Fintype

/-- Build configuration flags of the source file. -/
structure Config where
  debug : Bool
  addrenv : Bool
  pic : Bool
  ctors : Bool
deriving DecidableEq, Repr

/-- The fields of `struct binary_s` that `exec_module` branches on:
whether `entrypt` is non-NULL, and `stacksize`. -/
structure Binary where
  entrypt : Bool
  stacksize : Int
deriving DecidableEq, Repr

/-- Outcomes of the external collaborator calls, fixed up front: the run
is deterministic given the oracle.  Return-value fields mirror the C
conventions (`< 0` is failure for `up_addrenv_select`, `task_init`,
`up_addrenv_clone`, `task_activate`, `up_addrenv_restore`); `pid` is the
identity the scheduler wrote into `tcb->cmn.pid` during `task_init`. -/
structure Oracle where
  zallocOk : Bool
  selectRet : Int
  mallocOk : Bool
  taskInitRet : Int
  taskInitErrno : Nat
  pid : Nat
  cloneRet : Int
  activateRet : Int
  activateErrno : Nat
  restoreRet : Int
deriving DecidableEq, Repr

/-- What one call to `exec_module` did: the C return value, the errno it
set (none on success), and the ordered trace of collaborator calls. -/
structure RunResult where
  ret : Int
  errno : Option Nat
  trace : List Event
deriving DecidableEq, Repr

/-- The `errout` label: `set_errno(err); return ERROR;`. -/
def errout (err : Nat) (tr : List Event) : RunResult :=
  ⟨ERROR, some err, tr⟩

/-- The `errout_with_tcb` label: `kmm_free(tcb);` then fall through to
`errout`. -/
def errout_with_tcb (err : Nat) (tr : List Event) : RunResult :=
  errout err (tr ++ [Event.freeTcb])

/-- The `errout_with_addrenv` label: under `CONFIG_ARCH_ADDRENV` call
`up_addrenv_restore(&oldenv)`, then fall through to `errout_with_tcb`. -/
def errout_with_addrenv (cfg : Config) (err : Nat) (tr : List Event) : RunResult :=
  if cfg.addrenv then errout_with_tcb err (tr ++ [Event.restoreEnv])
  else errout_with_tcb err tr

/-- The `errout_with_stack` label:
`tcb->cmn.stack_alloc_ptr = NULL;` then
`sched_releasetcb(&tcb->cmn, TCB_FLAG_TTYPE_TASK);` (the pointer having
just been nulled, recorded as `releaseTcb false`), then
`kumm_free(stack);`, then goto `errout`. -/
def errout_with_stack (err : Nat) (tr : List Event) : RunResult :=
  errout err (tr ++ [Event.releaseTcb false, Event.freeStack])

/-- The `CONFIG_DEBUG` sanity check of `exec_module`:
`!binp || !binp->entrypt || binp->stacksize <= 0`. -/
def badInput : Option Binary → Bool
  | none => true
  | some b => !b.entrypt || decide (b.stacksize ≤ 0)

/-- Body of `exec_module` after the sanity check, with `binp` known
non-NULL.  Follows the C statement by statement; `tr` accumulates the
collaborator-call trace.

Modelled from the spec, for the collaborators whose bodies are outside
this file: `umm_initialize` makes the task-owned heap the current user
heap, so the later `kumm_malloc` draws from the task heap when
`CONFIG_ARCH_ADDRENV` is set and from the kernel allocator otherwise;
`task_init` on success stores `stack` in `tcb->cmn.stack_alloc_ptr`
(ownership transfer) and assigns `tcb->cmn.pid`; `sched_releasetcb`
frees the stack if and only if `stack_alloc_ptr` is non-NULL at the
call. -/
def exec_module_run (cfg : Config) (o : Oracle) (_binp : Binary) : RunResult :=
  let tr := [Event.allocTcb]
  if !o.zallocOk then errout ENOMEM tr
  else
  if cfg.addrenv ∧ o.selectRet < 0 then
    errout_with_tcb (-o.selectRet).toNat (tr ++ [Event.selectEnv])
  else
  let tr := if cfg.addrenv then
      tr ++ [Event.selectEnv, Event.ummInit Heap.taskHeap] else tr
  let heap := if cfg.addrenv then Heap.taskHeap else Heap.kernel
  let tr := tr ++ [Event.allocStack heap]
  if !o.mallocOk then errout_with_addrenv cfg ENOMEM tr
  else
  let tr := tr ++ [Event.taskInit]
  if o.taskInitRet < 0 then errout_with_stack o.taskInitErrno tr
  else
  let tr := if cfg.pic then tr ++ [Event.picSetup] else tr
  if cfg.addrenv ∧ o.cloneRet < 0 then
    errout_with_stack (-o.cloneRet).toNat (tr ++ [Event.cloneEnv])
  else
  let tr := if cfg.addrenv then tr ++ [Event.cloneEnv] else tr
  let tr := if cfg.ctors then tr ++ [Event.startHook] else tr
  let tr := tr ++ [Event.readPid]
  let pid := o.pid
  let tr := tr ++ [Event.activate]
  if o.activateRet < 0 then errout_with_stack o.activateErrno tr
  else
  if cfg.addrenv then
    let tr := tr ++ [Event.restoreEnv]
    if o.restoreRet < 0 then errout_with_stack (-o.restoreRet).toNat tr
    else ⟨(pid : Int), none, tr⟩
  else ⟨(pid : Int), none, tr⟩

/-- `exec_module`.  Under `CONFIG_DEBUG` the sanity check runs first and
rejects bad input with EINVAL before anything else happens; without
`CONFIG_DEBUG` there is no check, and a NULL `binp` is a NULL
dereference (undefined behaviour, modelled as `none`). -/
def exec_module (cfg : Config) (o : Oracle) (binp : Option Binary) :
    Option RunResult :=
  if cfg.debug ∧ badInput binp then some (errout EINVAL [])
  else
    match binp with
    | none => none
    | some b => some (exec_module_run cfg o b)

/-- Does this event free the stack buffer?  `kumm_free(stack)` always
does; `sched_releasetcb` does exactly when `stack_alloc_ptr` was still
set (it frees the stack it owns, transitively). -/
def freesStack : Event → Bool
  | Event.freeStack => true
  | Event.releaseTcb owned => owned
  | _ => false

/-- How many times the stack buffer is freed over a trace. -/
def stackFreeCount (tr : List Event) : Nat :=
  (tr.filter freesStack).length

/-- Does this event read or write the task control block?  Everything
except the pure address-environment and memory operations does. -/
def touchesTcb : Event → Bool
  | Event.selectEnv => false
  | Event.ummInit _ => false
  | Event.allocStack _ => false
  | Event.restoreEnv => false
  | Event.freeStack => false
  | Event.activate => false
  | _ => true

/-- Is this event a stack allocation (`kumm_malloc`)? -/
def isStackAlloc : Event → Bool
  | Event.allocStack _ => true
  | _ => false

/-- `exec_ctors` inner loop: starting at index `i`, call constructors
`i, i+1, ...` while `i < nctors`, returning the ordered list of invoked
constructor pointers (`ctors j` is the function pointer at offset `j`
from `binp->ctors`; each invocation takes no arguments). -/
def execCtorsFrom (ctors : Nat → Nat) (i nctors : Nat) : List Nat :=
  if i < nctors then ctors i :: execCtorsFrom ctors (i + 1) nctors else []
termination_by nctors - i

/-- `exec_ctors`: `for (i = 0; i < binp->nctors; i++) { (*ctor)(); ctor++; }`.
Returns the ordered sequence of constructor invocations. -/
def exec_ctors (ctors : Nat → Nat) (nctors : Nat) : List Nat :=
  execCtorsFrom ctors 0 nctors

/-- The collaborator-call prefix common to every run that reaches the
stack allocation, as a function of the `CONFIG_ARCH_ADDRENV` flag. -/
def trPre (a : Bool) : List Event :=
  Event.allocTcb ::
    (if a then [Event.selectEnv, Event.ummInit Heap.taskHeap] else []) ++
    [Event.allocStack (if a then Heap.taskHeap else Heap.kernel)]

/-- The collaborator-call prefix common to every run that reaches
activation, as a function of the `CONFIG_ARCH_ADDRENV`, `CONFIG_PIC`
and `CONFIG_BINFMT_CONSTRUCTORS` flags. -/
def trFull (a p c : Bool) : List Event :=
  trPre a ++ [Event.taskInit] ++ (if p then [Event.picSetup] else []) ++
    (if a then [Event.cloneEnv] else []) ++
    (if c then [Event.startHook] else []) ++
    [Event.readPid, Event.activate]

/-! ## Helper lemmas -/

/-- Exhaustive path enumeration for `exec_module_run`: every run ends in
one of the eight terminal states of the C function (the five `goto`
targets reached from the five fallible collaborators, plus the success
return), with the stated guard conditions, return value, errno and
collaborator-call trace.  The configuration is given by its four flags
`d` (`CONFIG_DEBUG`), `a` (`CONFIG_ARCH_ADDRENV`), `p` (`CONFIG_PIC`),
`c` (`CONFIG_BINFMT_CONSTRUCTORS`). -/
theorem exec_module_run_cases (d a p c : Bool) (o : Oracle) (binp : Binary) :
    (o.zallocOk = false ∧
      (exec_module_run ⟨d, a, p, c⟩ o binp).ret = ERROR ∧
      (exec_module_run ⟨d, a, p, c⟩ o binp).errno = some ENOMEM ∧
      (exec_module_run ⟨d, a, p, c⟩ o binp).trace = [Event.allocTcb]) ∨
    (o.zallocOk = true ∧ a = true ∧ o.selectRet < 0 ∧
      (exec_module_run ⟨d, a, p, c⟩ o binp).ret = ERROR ∧
      (exec_module_run ⟨d, a, p, c⟩ o binp).errno = some (-o.selectRet).toNat ∧
      (exec_module_run ⟨d, a, p, c⟩ o binp).trace =
        [Event.allocTcb, Event.selectEnv, Event.freeTcb]) ∨
    (o.zallocOk = true ∧ (a = true → ¬ o.selectRet < 0) ∧ o.mallocOk = false ∧
      (exec_module_run ⟨d, a, p, c⟩ o binp).ret = ERROR ∧
      (exec_module_run ⟨d, a, p, c⟩ o binp).errno = some ENOMEM ∧
      (exec_module_run ⟨d, a, p, c⟩ o binp).trace = trPre a ++
        (if a then [Event.restoreEnv] else []) ++ [Event.freeTcb]) ∨
    (o.zallocOk = true ∧ (a = true → ¬ o.selectRet < 0) ∧ o.mallocOk = true ∧
      o.taskInitRet < 0 ∧
      (exec_module_run ⟨d, a, p, c⟩ o binp).ret = ERROR ∧
      (exec_module_run ⟨d, a, p, c⟩ o binp).errno = some o.taskInitErrno ∧
      (exec_module_run ⟨d, a, p, c⟩ o binp).trace = trPre a ++
        [Event.taskInit, Event.releaseTcb false, Event.freeStack]) ∨
    (o.zallocOk = true ∧ (a = true → ¬ o.selectRet < 0) ∧ o.mallocOk = true ∧
      ¬ o.taskInitRet < 0 ∧ a = true ∧ o.cloneRet < 0 ∧
      (exec_module_run ⟨d, a, p, c⟩ o binp).ret = ERROR ∧
      (exec_module_run ⟨d, a, p, c⟩ o binp).errno = some (-o.cloneRet).toNat ∧
      (exec_module_run ⟨d, a, p, c⟩ o binp).trace = trPre true ++
        [Event.taskInit] ++ (if p then [Event.picSetup] else []) ++
        [Event.cloneEnv, Event.releaseTcb false, Event.freeStack]) ∨
    (o.zallocOk = true ∧ (a = true → ¬ o.selectRet < 0) ∧ o.mallocOk = true ∧
      ¬ o.taskInitRet < 0 ∧ (a = true → ¬ o.cloneRet < 0) ∧
      o.activateRet < 0 ∧
      (exec_module_run ⟨d, a, p, c⟩ o binp).ret = ERROR ∧
      (exec_module_run ⟨d, a, p, c⟩ o binp).errno = some o.activateErrno ∧
      (exec_module_run ⟨d, a, p, c⟩ o binp).trace = trFull a p c ++
        [Event.releaseTcb false, Event.freeStack]) ∨
    (o.zallocOk = true ∧ (a = true → ¬ o.selectRet < 0) ∧ o.mallocOk = true ∧
      ¬ o.taskInitRet < 0 ∧ (a = true → ¬ o.cloneRet < 0) ∧
      ¬ o.activateRet < 0 ∧ a = true ∧ o.restoreRet < 0 ∧
      (exec_module_run ⟨d, a, p, c⟩ o binp).ret = ERROR ∧
      (exec_module_run ⟨d, a, p, c⟩ o binp).errno = some (-o.restoreRet).toNat ∧
      (exec_module_run ⟨d, a, p, c⟩ o binp).trace = trFull true p c ++
        [Event.restoreEnv, Event.releaseTcb false, Event.freeStack]) ∨
    (o.zallocOk = true ∧ (a = true → ¬ o.selectRet < 0) ∧ o.mallocOk = true ∧
      ¬ o.taskInitRet < 0 ∧ (a = true → ¬ o.cloneRet < 0) ∧
      ¬ o.activateRet < 0 ∧ (a = true → ¬ o.restoreRet < 0) ∧
      (exec_module_run ⟨d, a, p, c⟩ o binp).ret = ((o.pid : Nat) : Int) ∧
      (exec_module_run ⟨d, a, p, c⟩ o binp).errno = none ∧
      (exec_module_run ⟨d, a, p, c⟩ o binp).trace = trFull a p c ++
        (if a then [Event.restoreEnv] else [])) := by
  cases hz : o.zallocOk with
  | false =>
    refine Or.inl ⟨rfl, ?_, ?_, ?_⟩ <;> simp [exec_module_run, hz, errout]
  | true =>
  cases a with
  | true =>
    by_cases hs : o.selectRet < 0
    · refine Or.inr (Or.inl ⟨rfl, rfl, hs, ?_, ?_, ?_⟩) <;>
        simp [exec_module_run, hz, hs, errout_with_tcb, errout]
    · cases hm : o.mallocOk with
      | false =>
        refine Or.inr (Or.inr (Or.inl ⟨rfl, fun _ => hs, rfl, ?_, ?_, ?_⟩)) <;>
          simp [exec_module_run, hz, hs, hm, errout_with_addrenv,
            errout_with_tcb, errout, trPre]
      | true =>
        by_cases hti : o.taskInitRet < 0
        · refine Or.inr (Or.inr (Or.inr (Or.inl
            ⟨rfl, fun _ => hs, rfl, hti, ?_, ?_, ?_⟩))) <;>
            simp [exec_module_run, hz, hs, hm, hti, errout_with_stack, errout,
              trPre]
        · by_cases hcl : o.cloneRet < 0
          · refine Or.inr (Or.inr (Or.inr (Or.inr (Or.inl
              ⟨rfl, fun _ => hs, rfl, hti, rfl, hcl, ?_, ?_, ?_⟩)))) <;>
              cases p <;>
                simp [exec_module_run, hz, hs, hm, hti, hcl, errout_with_stack,
                  errout, trPre]
          · by_cases hac : o.activateRet < 0
            · refine Or.inr (Or.inr (Or.inr (Or.inr (Or.inr (Or.inl
                ⟨rfl, fun _ => hs, rfl, hti, fun _ => hcl, hac,
                 ?_, ?_, ?_⟩))))) <;>
                cases p <;> cases c <;>
                  simp [exec_module_run, hz, hs, hm, hti, hcl, hac,
                    errout_with_stack, errout, trPre, trFull]
            · by_cases hre : o.restoreRet < 0
              · refine Or.inr (Or.inr (Or.inr (Or.inr (Or.inr (Or.inr (Or.inl
                  ⟨rfl, fun _ => hs, rfl, hti, fun _ => hcl, hac, rfl, hre,
                   ?_, ?_, ?_⟩)))))) <;>
                  cases p <;> cases c <;>
                    simp [exec_module_run, hz, hs, hm, hti, hcl, hac, hre,
                      errout_with_stack, errout, trPre, trFull]
              · refine Or.inr (Or.inr (Or.inr (Or.inr (Or.inr (Or.inr (Or.inr
                  ⟨rfl, fun _ => hs, rfl, hti, fun _ => hcl, hac, fun _ => hre,
                   ?_, ?_, ?_⟩)))))) <;>
                  cases p <;> cases c <;>
                    simp [exec_module_run, hz, hs, hm, hti, hcl, hac, hre,
                      trPre, trFull]
  | false =>
    cases hm : o.mallocOk with
    | false =>
      refine Or.inr (Or.inr (Or.inl ⟨rfl, (by simp), rfl, ?_, ?_, ?_⟩)) <;>
        simp [exec_module_run, hz, hm, errout_with_addrenv, errout_with_tcb,
          errout, trPre]
    | true =>
      by_cases hti : o.taskInitRet < 0
      · refine Or.inr (Or.inr (Or.inr (Or.inl
          ⟨rfl, (by simp), rfl, hti, ?_, ?_, ?_⟩))) <;>
          simp [exec_module_run, hz, hm, hti, errout_with_stack, errout, trPre]
      · by_cases hac : o.activateRet < 0
        · refine Or.inr (Or.inr (Or.inr (Or.inr (Or.inr (Or.inl
            ⟨rfl, (by simp), rfl, hti, (by simp), hac, ?_, ?_, ?_⟩))))) <;>
            cases p <;> cases c <;>
              simp [exec_module_run, hz, hm, hti, hac, errout_with_stack,
                errout, trPre, trFull]
        · refine Or.inr (Or.inr (Or.inr (Or.inr (Or.inr (Or.inr (Or.inr
            ⟨rfl, (by simp), rfl, hti, (by simp), hac, (by simp),
             ?_, ?_, ?_⟩)))))) <;>
            cases p <;> cases c <;>
              simp [exec_module_run, hz, hm, hti, hac, trPre, trFull]


theorem execCtorsFrom_eq_range (ctors : Nat → Nat) (i nctors : Nat) :
    execCtorsFrom ctors i nctors = (List.range' i (nctors - i)).map ctors := by
  rw [execCtorsFrom]
  split
  · next h =>
      have h1 : nctors - i = (nctors - (i + 1)) + 1 := by omega
      rw [execCtorsFrom_eq_range ctors (i + 1) nctors, h1, List.range'_succ]
      simp
  · next h =>
      have h0 : nctors - i = 0 := by omega
      simp [h0]
termination_by nctors - i

/-! ## Claims -/

/-- C8: for every binary descriptor with `nctors` entries in its
constructor list (including `nctors = 0`), `exec_ctors` invokes exactly
the first `nctors` function pointers of `binp->ctors`, in ascending list
order (the returned trace lists the invocations in call order, each a
zero-argument call), and invokes nothing when the list is empty. -/
theorem C8_exec_ctors_in_order (ctors : Nat → Nat) (nctors : Nat) :
    exec_ctors ctors nctors = (List.range nctors).map ctors ∧
    exec_ctors ctors 0 = [] := by
  constructor
  · rw [exec_ctors, execCtorsFrom_eq_range, List.range_eq_range']
    simp
  · rw [exec_ctors, execCtorsFrom_eq_range]
    simp

/-- C1: the claim says that whenever `up_addrenv_select` succeeded, the
saved `oldenv` is restored on every exit path except a failure of the
selection itself.  The code violates this: with `CONFIG_ARCH_ADDRENV`
set, select succeeding and `task_init` failing (errno 22), control goes
to `errout_with_stack`, which releases the TCB and frees the stack but
never calls `up_addrenv_restore` — the trace below contains `selectEnv`
and no `restoreEnv`.  The same holds for the clone-failure and
activation-failure paths. -/
theorem C1_no_addrenv_restore_after_task_init_failure :
    exec_module ⟨false, true, false, false⟩ ⟨true, 0, true, -1, 22, 3, 0, 0, 0, 0⟩
        (some ⟨true, 2048⟩) =
      some ⟨ERROR, some 22,
        [Event.allocTcb, Event.selectEnv, Event.ummInit Heap.taskHeap,
         Event.allocStack Heap.taskHeap, Event.taskInit,
         Event.releaseTcb false, Event.freeStack]⟩ ∧
    Event.selectEnv ∈
      [Event.allocTcb, Event.selectEnv, Event.ummInit Heap.taskHeap,
       Event.allocStack Heap.taskHeap, Event.taskInit,
       Event.releaseTcb false, Event.freeStack] ∧
    Event.restoreEnv ∉
      [Event.allocTcb, Event.selectEnv, Event.ummInit Heap.taskHeap,
       Event.allocStack Heap.taskHeap, Event.taskInit,
       Event.releaseTcb false, Event.freeStack] := by
  refine ⟨by decide, by decide, by decide⟩

/-- C3: the claim says a failure of `up_addrenv_restore` after
`task_activate` succeeded is reported without unwinding the live task.
The code violates this: the restore-failure path jumps to
`errout_with_stack`, which releases the already-activated task's TCB
(`sched_releasetcb`) and frees its stack (`kumm_free`) — below, both
unwind events occur strictly after the `activate` event. -/
theorem C3_restore_failure_releases_activated_task :
    exec_module ⟨false, true, false, false⟩ ⟨true, 0, true, 0, 0, 7, 0, 0, 0, -1⟩
        (some ⟨true, 2048⟩) =
      some ⟨ERROR, some 1,
        [Event.allocTcb, Event.selectEnv, Event.ummInit Heap.taskHeap,
         Event.allocStack Heap.taskHeap, Event.taskInit, Event.cloneEnv,
         Event.readPid, Event.activate, Event.restoreEnv,
         Event.releaseTcb false, Event.freeStack]⟩ ∧
    ∃ l1 l2,
      [Event.allocTcb, Event.selectEnv, Event.ummInit Heap.taskHeap,
       Event.allocStack Heap.taskHeap, Event.taskInit, Event.cloneEnv,
       Event.readPid, Event.activate, Event.restoreEnv,
       Event.releaseTcb false, Event.freeStack] = l1 ++ Event.activate :: l2 ∧
      Event.releaseTcb false ∈ l2 ∧ Event.freeStack ∈ l2 := by
  refine ⟨by decide,
    [Event.allocTcb, Event.selectEnv, Event.ummInit Heap.taskHeap,
     Event.allocStack Heap.taskHeap, Event.taskInit, Event.cloneEnv,
     Event.readPid],
    [Event.restoreEnv, Event.releaseTcb false, Event.freeStack],
    by decide, by decide, by decide⟩

/-- C2 counterexample: the claim says that when a step after a
successful `task_init` fails, the stack free happens via the
descriptor's release and never by an independent free from the
sequencer.  In the code it is the other way around: on the
activation-failure path `stack_alloc_ptr` is nulled first, so
`sched_releasetcb` is called with no stack to free (`releaseTcb false`,
and `releaseTcb true` never occurs), and the stack is freed by the
sequencer's own `kumm_free` (`freeStack`). -/
theorem C2_counterexample_stack_freed_independently :
    exec_module ⟨false, false, false, false⟩ ⟨true, 0, true, 0, 0, 9, 0, -1, 13, 0⟩
        (some ⟨true, 2048⟩) =
      some ⟨ERROR, some 13,
        [Event.allocTcb, Event.allocStack Heap.kernel, Event.taskInit,
         Event.readPid, Event.activate, Event.releaseTcb false,
         Event.freeStack]⟩ ∧
    Event.freeStack ∈
      [Event.allocTcb, Event.allocStack Heap.kernel, Event.taskInit,
       Event.readPid, Event.activate, Event.releaseTcb false,
       Event.freeStack] ∧
    Event.releaseTcb true ∉
      [Event.allocTcb, Event.allocStack Heap.kernel, Event.taskInit,
       Event.readPid, Event.activate, Event.releaseTcb false,
       Event.freeStack] := by
  refine ⟨by decide, by decide, by decide⟩

/-- C4 counterexample: the claim says any input with a non-positive
stack size is rejected with EINVAL before any allocator call.  The
sanity check only exists under `CONFIG_DEBUG`: in a non-debug build,
`exec_module` on `stacksize = 0` proceeds to `kmm_zalloc` (event
`allocTcb`) and, with cooperative collaborators, even succeeds —
returning pid 5 with errno untouched, not EINVAL. -/
theorem C4_counterexample_no_validation_without_debug :
    exec_module ⟨false, false, false, false⟩ ⟨true, 0, true, 0, 0, 5, 0, 0, 0, 0⟩
        (some ⟨true, 0⟩) =
      some ⟨5, none,
        [Event.allocTcb, Event.allocStack Heap.kernel, Event.taskInit,
         Event.readPid, Event.activate]⟩ ∧
    Event.allocTcb ∈
      [Event.allocTcb, Event.allocStack Heap.kernel, Event.taskInit,
       Event.readPid, Event.activate] ∧
    (some 5 : Option Int) ≠ some ERROR := by
  refine ⟨by decide, by decide, by decide⟩

/-- C4 amended: in a build with `CONFIG_DEBUG` set, every input whose
descriptor is NULL, whose entry point is NULL or whose stack size is
non-positive makes `exec_module` return ERROR with errno EINVAL and an
empty collaborator trace — no allocator call, no resources touched.
(Without `CONFIG_DEBUG` the validation is compiled out.) -/
theorem C4_amended_validation_under_debug (cfg : Config) (o : Oracle)
    (binp : Option Binary) (hd : cfg.debug = true)
    (hbad : badInput binp = true) :
    exec_module cfg o binp = some ⟨ERROR, some EINVAL, []⟩ := by
  simp [exec_module, hd, hbad, errout]

theorem C4_amended_witness :
    exec_module ⟨true, false, false, false⟩ ⟨true, 0, true, 0, 0, 5, 0, 0, 0, 0⟩
        (some ⟨true, 0⟩) = some ⟨ERROR, some EINVAL, []⟩ :=
  C4_amended_validation_under_debug ⟨true, false, false, false⟩
    ⟨true, 0, true, 0, 0, 5, 0, 0, 0, 0⟩ (some ⟨true, 0⟩) rfl (by decide)

/-- C2 amended: for every execution in which `task_init` has succeeded
and a later step (address-environment clone, activation, or the final
restore) fails, the stack buffer is freed exactly once — but by the
sequencer's own `kumm_free`, after the descriptor's `stack_alloc_ptr`
has been set to NULL; the descriptor release (`sched_releasetcb`) is
always called with the stack pointer already nulled (`releaseTcb true`
never occurs), so it never frees the stack. -/
theorem C2_amended_stack_freed_once_by_sequencer (cfg : Config) (o : Oracle)
    (binp : Binary)
    (hz : o.zallocOk = true)
    (hsel : cfg.addrenv = true → ¬ o.selectRet < 0)
    (hm : o.mallocOk = true)
    (hti : ¬ o.taskInitRet < 0)
    (hfail : (cfg.addrenv = true ∧ o.cloneRet < 0) ∨ o.activateRet < 0 ∨
      (cfg.addrenv = true ∧ o.restoreRet < 0)) :
    stackFreeCount (exec_module_run cfg o binp).trace = 1 ∧
    Event.freeStack ∈ (exec_module_run cfg o binp).trace ∧
    Event.releaseTcb true ∉ (exec_module_run cfg o binp).trace := by
  obtain ⟨d, a, p, c⟩ := cfg
  rcases exec_module_run_cases d a p c o binp with
    ⟨h1, hr, he, ht⟩ | ⟨h1, h2, h3, hr, he, ht⟩ | ⟨h1, h2, h3, hr, he, ht⟩ |
    ⟨h1, h2, h3, h4, hr, he, ht⟩ | ⟨h1, h2, h3, h4, h5, h6, hr, he, ht⟩ |
    ⟨h1, h2, h3, h4, h5, h6, hr, he, ht⟩ |
    ⟨h1, h2, h3, h4, h5, h6, h7, h8, hr, he, ht⟩ |
    ⟨h1, h2, h3, h4, h5, h6, h7, hr, he, ht⟩
  · simp [hz] at h1
  · exact absurd h3 (hsel h2)
  · simp [hm] at h3
  · exact absurd h4 hti
  · rw [ht]; cases p <;> decide
  · rw [ht]; cases a <;> cases p <;> cases c <;> decide
  · rw [ht]; cases p <;> cases c <;> decide
  · rcases hfail with ⟨ha, hc⟩ | hx | ⟨ha, hrs⟩
    · exact absurd hc (h5 ha)
    · exact absurd hx h6
    · exact absurd hrs (h7 ha)

theorem C2_amended_witness :
    stackFreeCount (exec_module_run ⟨false, false, false, false⟩
        ⟨true, 0, true, 0, 0, 9, 0, -1, 13, 0⟩ ⟨true, 2048⟩).trace = 1 :=
  (C2_amended_stack_freed_once_by_sequencer ⟨false, false, false, false⟩
    ⟨true, 0, true, 0, 0, 9, 0, -1, 13, 0⟩ ⟨true, 2048⟩ rfl (by decide) rfl
    (by decide) (Or.inr (Or.inl (by decide)))).1

/-- C5: on every failure path taken after `task_init` has succeeded (the
`errout_with_stack` label), the code first sets
`tcb->cmn.stack_alloc_ptr` to NULL, then calls `sched_releasetcb` (which
therefore does not touch the stack buffer), then frees the stack exactly
once with `kumm_free`: the trace ends with `releaseTcb false` followed
by `freeStack`, the only stack-freeing event of the whole run. -/
theorem C5_errout_with_stack_single_free (cfg : Config) (o : Oracle)
    (binp : Binary)
    (hz : o.zallocOk = true)
    (hsel : cfg.addrenv = true → ¬ o.selectRet < 0)
    (hm : o.mallocOk = true)
    (hti : ¬ o.taskInitRet < 0)
    (hfail : (cfg.addrenv = true ∧ o.cloneRet < 0) ∨ o.activateRet < 0 ∨
      (cfg.addrenv = true ∧ o.restoreRet < 0)) :
    (exec_module_run cfg o binp).trace.drop
        ((exec_module_run cfg o binp).trace.length - 2) =
      [Event.releaseTcb false, Event.freeStack] ∧
    stackFreeCount (exec_module_run cfg o binp).trace = 1 ∧
    (∀ e ∈ (exec_module_run cfg o binp).trace,
      freesStack e = true → e = Event.freeStack) := by
  obtain ⟨d, a, p, c⟩ := cfg
  rcases exec_module_run_cases d a p c o binp with
    ⟨h1, hr, he, ht⟩ | ⟨h1, h2, h3, hr, he, ht⟩ | ⟨h1, h2, h3, hr, he, ht⟩ |
    ⟨h1, h2, h3, h4, hr, he, ht⟩ | ⟨h1, h2, h3, h4, h5, h6, hr, he, ht⟩ |
    ⟨h1, h2, h3, h4, h5, h6, hr, he, ht⟩ |
    ⟨h1, h2, h3, h4, h5, h6, h7, h8, hr, he, ht⟩ |
    ⟨h1, h2, h3, h4, h5, h6, h7, hr, he, ht⟩
  · simp [hz] at h1
  · exact absurd h3 (hsel h2)
  · simp [hm] at h3
  · exact absurd h4 hti
  · rw [ht]; cases p <;> decide
  · rw [ht]; cases a <;> cases p <;> cases c <;> decide
  · rw [ht]; cases p <;> cases c <;> decide
  · rcases hfail with ⟨ha, hc⟩ | hx | ⟨ha, hrs⟩
    · exact absurd hc (h5 ha)
    · exact absurd hx h6
    · exact absurd hrs (h7 ha)

theorem C5_witness :
    stackFreeCount (exec_module_run ⟨false, true, false, false⟩
        ⟨true, 0, true, 0, 0, 7, 0, 0, 0, -1⟩ ⟨true, 2048⟩).trace = 1 :=
  (C5_errout_with_stack_single_free ⟨false, true, false, false⟩
    ⟨true, 0, true, 0, 0, 7, 0, 0, 0, -1⟩ ⟨true, 2048⟩ rfl (by decide) rfl
    (by decide) (Or.inr (Or.inr ⟨rfl, by decide⟩))).2.1

/-- C6: when the stack allocation (`kumm_malloc`) fails,
`exec_module` returns ERROR with errno ENOMEM, the TCB is released with
`kmm_free`, the previously selected address environment is restored
(when `CONFIG_ARCH_ADDRENV` is set), and the task was never registered
with the scheduler: `task_init`, `task_activate` and `sched_releasetcb`
are never called. -/
theorem C6_stack_alloc_failure_cleanup (cfg : Config) (o : Oracle)
    (binp : Binary)
    (hz : o.zallocOk = true)
    (hsel : cfg.addrenv = true → ¬ o.selectRet < 0)
    (hm : o.mallocOk = false) :
    (exec_module_run cfg o binp).ret = ERROR ∧
    (exec_module_run cfg o binp).errno = some ENOMEM ∧
    Event.freeTcb ∈ (exec_module_run cfg o binp).trace ∧
    (cfg.addrenv = true → Event.restoreEnv ∈ (exec_module_run cfg o binp).trace) ∧
    Event.taskInit ∉ (exec_module_run cfg o binp).trace ∧
    Event.activate ∉ (exec_module_run cfg o binp).trace ∧
    (∀ b, Event.releaseTcb b ∉ (exec_module_run cfg o binp).trace) := by
  obtain ⟨d, a, p, c⟩ := cfg
  rcases exec_module_run_cases d a p c o binp with
    ⟨h1, hr, he, ht⟩ | ⟨h1, h2, h3, hr, he, ht⟩ | ⟨h1, h2, h3, hr, he, ht⟩ |
    ⟨h1, h2, h3, h4, hr, he, ht⟩ | ⟨h1, h2, h3, h4, h5, h6, hr, he, ht⟩ |
    ⟨h1, h2, h3, h4, h5, h6, hr, he, ht⟩ |
    ⟨h1, h2, h3, h4, h5, h6, h7, h8, hr, he, ht⟩ |
    ⟨h1, h2, h3, h4, h5, h6, h7, hr, he, ht⟩
  · simp [hz] at h1
  · exact absurd h3 (hsel h2)
  · rw [ht]
    cases a with
    | false => exact ⟨hr, he, by decide, fun h => absurd h (by simp),
        by decide, by decide, by decide⟩
    | true => exact ⟨hr, he, by decide, fun _ => by decide, by decide,
        by decide, by decide⟩
  · simp [hm] at h3
  · simp [hm] at h3
  · simp [hm] at h3
  · simp [hm] at h3
  · simp [hm] at h3

theorem C6_witness :
    Event.freeTcb ∈ (exec_module_run ⟨false, true, false, false⟩
        ⟨true, 0, false, 0, 0, 5, 0, 0, 0, 0⟩ ⟨true, 2048⟩).trace :=
  (C6_stack_alloc_failure_cleanup ⟨false, true, false, false⟩
    ⟨true, 0, false, 0, 0, 5, 0, 0, 0, 0⟩ ⟨true, 2048⟩ rfl (by decide)
    rfl).2.2.1

/-- C7: on every successful execution, errno is untouched, the return
value is exactly the pid read from `tcb->cmn.pid` at the `readPid`
program point, that read occurs strictly before the `activate` event,
and every event after `activate` (only the address-environment restore)
leaves the task control block untouched. -/
theorem C7_pid_captured_before_activation (cfg : Config) (o : Oracle)
    (binp : Binary)
    (hz : o.zallocOk = true)
    (hsel : cfg.addrenv = true → ¬ o.selectRet < 0)
    (hm : o.mallocOk = true)
    (hti : ¬ o.taskInitRet < 0)
    (hcl : cfg.addrenv = true → ¬ o.cloneRet < 0)
    (hact : ¬ o.activateRet < 0)
    (hres : cfg.addrenv = true → ¬ o.restoreRet < 0) :
    (exec_module_run cfg o binp).errno = none ∧
    (exec_module_run cfg o binp).ret = (o.pid : Int) ∧
    Event.readPid ∈ (exec_module_run cfg o binp).trace ∧
    Event.activate ∈ (exec_module_run cfg o binp).trace ∧
    (exec_module_run cfg o binp).trace.indexOf Event.readPid <
      (exec_module_run cfg o binp).trace.indexOf Event.activate ∧
    (∀ e ∈ (exec_module_run cfg o binp).trace.drop
        ((exec_module_run cfg o binp).trace.indexOf Event.activate + 1),
      touchesTcb e = false) := by
  obtain ⟨d, a, p, c⟩ := cfg
  rcases exec_module_run_cases d a p c o binp with
    ⟨h1, hr, he, ht⟩ | ⟨h1, h2, h3, hr, he, ht⟩ | ⟨h1, h2, h3, hr, he, ht⟩ |
    ⟨h1, h2, h3, h4, hr, he, ht⟩ | ⟨h1, h2, h3, h4, h5, h6, hr, he, ht⟩ |
    ⟨h1, h2, h3, h4, h5, h6, hr, he, ht⟩ |
    ⟨h1, h2, h3, h4, h5, h6, h7, h8, hr, he, ht⟩ |
    ⟨h1, h2, h3, h4, h5, h6, h7, hr, he, ht⟩
  · simp [hz] at h1
  · exact absurd h3 (hsel h2)
  · simp [hm] at h3
  · exact absurd h4 hti
  · exact absurd h6 (hcl h5)
  · exact absurd h6 hact
  · exact absurd h8 (hres h7)
  · rw [ht]
    cases a <;> cases p <;> cases c <;>
      exact ⟨he, hr, by decide, by decide, by decide, by decide⟩

theorem C7_witness :
    (exec_module_run ⟨true, true, true, true⟩
        ⟨true, 0, true, 0, 0, 5, 0, 0, 0, 0⟩ ⟨true, 100⟩).ret = ((5 : Nat) : Int) :=
  (C7_pid_captured_before_activation ⟨true, true, true, true⟩
    ⟨true, 0, true, 0, 0, 5, 0, 0, 0, 0⟩ ⟨true, 100⟩ rfl (by decide) rfl
    (by decide) (by decide) (by decide) (by decide)).2.1

/-- C9: whenever the run reaches the stack allocation, the allocation is
drawn from the task-owned heap when `CONFIG_ARCH_ADDRENV` is set (the
`umm_initialize` event re-targeting the user allocator at the task heap
occurs strictly before it, and no allocation from any other heap
occurs), and from the kernel allocator otherwise (no `umm_initialize`
occurs at all). -/
theorem C9_stack_heap_selection (cfg : Config) (o : Oracle) (binp : Binary)
    (hz : o.zallocOk = true)
    (hsel : cfg.addrenv = true → ¬ o.selectRet < 0) :
    (cfg.addrenv = true →
      Event.ummInit Heap.taskHeap ∈ (exec_module_run cfg o binp).trace ∧
      Event.allocStack Heap.taskHeap ∈ (exec_module_run cfg o binp).trace ∧
      (exec_module_run cfg o binp).trace.indexOf (Event.ummInit Heap.taskHeap) <
        (exec_module_run cfg o binp).trace.indexOf (Event.allocStack Heap.taskHeap) ∧
      (∀ h, Event.allocStack h ∈ (exec_module_run cfg o binp).trace →
        h = Heap.taskHeap)) ∧
    (cfg.addrenv = false →
      Event.allocStack Heap.kernel ∈ (exec_module_run cfg o binp).trace ∧
      (∀ h, Event.ummInit h ∉ (exec_module_run cfg o binp).trace) ∧
      (∀ h, Event.allocStack h ∈ (exec_module_run cfg o binp).trace →
        h = Heap.kernel)) := by
  obtain ⟨d, a, p, c⟩ := cfg
  rcases exec_module_run_cases d a p c o binp with
    ⟨h1, hr, he, ht⟩ | ⟨h1, h2, h3, hr, he, ht⟩ | ⟨h1, h2, h3, hr, he, ht⟩ |
    ⟨h1, h2, h3, h4, hr, he, ht⟩ | ⟨h1, h2, h3, h4, h5, h6, hr, he, ht⟩ |
    ⟨h1, h2, h3, h4, h5, h6, hr, he, ht⟩ |
    ⟨h1, h2, h3, h4, h5, h6, h7, h8, hr, he, ht⟩ |
    ⟨h1, h2, h3, h4, h5, h6, h7, hr, he, ht⟩
  · simp [hz] at h1
  · exact absurd h3 (hsel h2)
  · rw [ht]
    cases a <;>
      [exact ⟨fun h => absurd h (by simp), fun _ => by decide⟩;
       exact ⟨fun _ => by decide, fun h => absurd h (by simp)⟩]
  · rw [ht]
    cases a <;>
      [exact ⟨fun h => absurd h (by simp), fun _ => by decide⟩;
       exact ⟨fun _ => by decide, fun h => absurd h (by simp)⟩]
  · have ha : a = true := h5
    subst ha
    rw [ht]
    cases p <;>
      exact ⟨fun _ => by decide, fun h => absurd h (by simp)⟩
  · rw [ht]
    cases a <;> cases p <;> cases c <;>
      first
      | exact ⟨fun h => absurd h (by simp), fun _ => by decide⟩
      | exact ⟨fun _ => by decide, fun h => absurd h (by simp)⟩
  · have ha : a = true := h7
    subst ha
    rw [ht]
    cases p <;> cases c <;>
      exact ⟨fun _ => by decide, fun h => absurd h (by simp)⟩
  · rw [ht]
    cases a <;> cases p <;> cases c <;>
      first
      | exact ⟨fun h => absurd h (by simp), fun _ => by decide⟩
      | exact ⟨fun _ => by decide, fun h => absurd h (by simp)⟩

theorem C9_witness :
    Event.allocStack Heap.taskHeap ∈ (exec_module_run ⟨false, true, false, false⟩
        ⟨true, 0, true, 0, 0, 5, 0, 0, 0, 0⟩ ⟨true, 2048⟩).trace :=
  ((C9_stack_heap_selection ⟨false, true, false, false⟩
    ⟨true, 0, true, 0, 0, 5, 0, 0, 0, 0⟩ ⟨true, 2048⟩ rfl (by decide)).1
    rfl).2.1

/-- C10: given that the scheduler assigns a positive pid, every run of
the sequencer body either succeeds — errno untouched, returning that
positive pid — or fails, returning the distinguished value ERROR with
errno equal to the failing step's own diagnostic code (ENOMEM for the
TCB or stack allocation, the negated return of `up_addrenv_select`,
`up_addrenv_clone` or `up_addrenv_restore`, the errno of `task_init` or
`task_activate`); and no collaborator step is ever retried: each of the
TCB allocation, address-environment selection, stack allocation, task
initialization, activation and restore calls appears at most once in
the trace. -/
theorem C10_return_and_errno_contract (cfg : Config) (o : Oracle)
    (binp : Binary) (hpid : 0 < o.pid) :
    (((exec_module_run cfg o binp).errno = none ∧
        (exec_module_run cfg o binp).ret = (o.pid : Int) ∧
        0 < (exec_module_run cfg o binp).ret) ∨
      ((exec_module_run cfg o binp).ret = ERROR ∧
        ((o.zallocOk = false ∧
            (exec_module_run cfg o binp).errno = some ENOMEM) ∨
         (cfg.addrenv = true ∧ o.selectRet < 0 ∧
            (exec_module_run cfg o binp).errno =
              some (-o.selectRet).toNat) ∨
         (o.mallocOk = false ∧
            (exec_module_run cfg o binp).errno = some ENOMEM) ∨
         (o.taskInitRet < 0 ∧
            (exec_module_run cfg o binp).errno = some o.taskInitErrno) ∨
         (cfg.addrenv = true ∧ o.cloneRet < 0 ∧
            (exec_module_run cfg o binp).errno =
              some (-o.cloneRet).toNat) ∨
         (o.activateRet < 0 ∧
            (exec_module_run cfg o binp).errno = some o.activateErrno) ∨
         (cfg.addrenv = true ∧ o.restoreRet < 0 ∧
            (exec_module_run cfg o binp).errno =
              some (-o.restoreRet).toNat)))) ∧
    (exec_module_run cfg o binp).trace.count Event.allocTcb ≤ 1 ∧
    (exec_module_run cfg o binp).trace.count Event.selectEnv ≤ 1 ∧
    ((exec_module_run cfg o binp).trace.filter isStackAlloc).length ≤ 1 ∧
    (exec_module_run cfg o binp).trace.count Event.taskInit ≤ 1 ∧
    (exec_module_run cfg o binp).trace.count Event.activate ≤ 1 ∧
    (exec_module_run cfg o binp).trace.count Event.restoreEnv ≤ 1 := by
  obtain ⟨d, a, p, c⟩ := cfg
  rcases exec_module_run_cases d a p c o binp with
    ⟨h1, hr, he, ht⟩ | ⟨h1, h2, h3, hr, he, ht⟩ | ⟨h1, h2, h3, hr, he, ht⟩ |
    ⟨h1, h2, h3, h4, hr, he, ht⟩ | ⟨h1, h2, h3, h4, h5, h6, hr, he, ht⟩ |
    ⟨h1, h2, h3, h4, h5, h6, hr, he, ht⟩ |
    ⟨h1, h2, h3, h4, h5, h6, h7, h8, hr, he, ht⟩ |
    ⟨h1, h2, h3, h4, h5, h6, h7, hr, he, ht⟩
  · rw [ht]
    exact ⟨Or.inr ⟨hr, Or.inl ⟨h1, he⟩⟩, by decide, by decide, by decide,
      by decide, by decide, by decide⟩
  · rw [ht]
    exact ⟨Or.inr ⟨hr, Or.inr (Or.inl ⟨h2, h3, he⟩)⟩, by decide, by decide,
      by decide, by decide, by decide, by decide⟩
  · rw [ht]
    cases a <;>
      exact ⟨Or.inr ⟨hr, Or.inr (Or.inr (Or.inl ⟨h3, he⟩))⟩, by decide,
        by decide, by decide, by decide, by decide, by decide⟩
  · rw [ht]
    cases a <;>
      exact ⟨Or.inr ⟨hr, Or.inr (Or.inr (Or.inr (Or.inl ⟨h4, he⟩)))⟩,
        by decide, by decide, by decide, by decide, by decide, by decide⟩
  · rw [ht]
    cases p <;>
      exact ⟨Or.inr ⟨hr, Or.inr (Or.inr (Or.inr (Or.inr (Or.inl
        ⟨h5, h6, he⟩))))⟩, by decide, by decide, by decide, by decide,
        by decide, by decide⟩
  · rw [ht]
    cases a <;> cases p <;> cases c <;>
      exact ⟨Or.inr ⟨hr, Or.inr (Or.inr (Or.inr (Or.inr (Or.inr (Or.inl
        ⟨h6, he⟩)))))⟩, by decide, by decide, by decide, by decide,
        by decide, by decide⟩
  · rw [ht]
    cases p <;> cases c <;>
      exact ⟨Or.inr ⟨hr, Or.inr (Or.inr (Or.inr (Or.inr (Or.inr (Or.inr
        ⟨h7, h8, he⟩)))))⟩, by decide, by decide, by decide, by decide,
        by decide, by decide⟩
  · rw [ht]
    cases a <;> cases p <;> cases c <;>
      exact ⟨Or.inl ⟨he, hr, by rw [hr]; exact Int.natCast_pos.mpr hpid⟩,
        by decide, by decide, by decide, by decide, by decide, by decide⟩

theorem C10_witness :
    (exec_module_run ⟨false, true, false, false⟩
        ⟨true, 0, true, 0, 0, 7, 0, 0, 0, -1⟩ ⟨true, 2048⟩).trace.count
      Event.restoreEnv ≤ 1 :=
  (C10_return_and_errno_contract ⟨false, true, false, false⟩
    ⟨true, 0, true, 0, 0, 7, 0, 0, 0, -1⟩ ⟨true, 2048⟩ (by decide)).2.2.2.2.2.2

end BinfmtExec
